import Mathlib

/-!
Shallow embedding of the natours Express application pipeline (src/app.js)
and the process supervisor (the server bootstrap file).

The middleware chain of app.js is modelled as a single dispatch function
over a request, a rate-limit counter state and the application
configuration; every middleware registered in app.js appears as a stage,
in registration order, and the stages that can end the request (cors
preflight, static files, the rate limiter, the webhook route, the body
parsers, the routers, the catch-all 404 and the terminal error handler)
are the branch points of the function.  The routers' internal route
tables, the error controller and the webhook controller are not part of
the given sources; routers are abstract boolean predicates of the
configuration and the error controller is modelled from the spec.
-/

/-- A query parameter value after query-string parsing: Express's extended
parser (qs) turns repeated keys into arrays and bracket keys such as
price[gte] into nested objects. -/
inductive QueryValue where
  | str (s : String)
  | arr (l : List String)
  | obj (l : List (String × String))
deriving Repr, DecidableEq

/-- An inbound HTTP request as it arrives: method, path, content type,
raw body bytes, the raw query pairs in wire order, and the client IP. -/
structure Request where
  method : String
  path : String
  contentType : String
  bodyBytes : List Nat
  rawPairs : List (String × String)
  ip : String
deriving Repr, DecidableEq

/-- The state of req.body as seen by a handler: untouched, the raw bytes
kept by express.raw, or parsed by express.json / express.urlencoded. -/
inductive Body where
  | unparsed
  | raw (bytes : List Nat)
  | json (bytes : List Nat)
  | urlenc (bytes : List Nat)
deriving Repr, DecidableEq

/-- The request as a handler sees it after the middleware chain mutated
it in place: the body state, the (possibly hpp-cleaned) query, and flags
recording which transforming middlewares have run on it. -/
structure ReqState where
  req : Request
  body : Body
  query : List (String × QueryValue)
  cookiesParsed : Bool
  mongoSanitized : Bool
  xssCleaned : Bool
  hppApplied : Bool
  requestTime : Bool
deriving Repr, DecidableEq

/-- How a request ends: a response sent directly by a middleware stage
(cors preflight, static file, rate limiter), a route handler reached
normally with the request state it sees, or a response shaped by the
terminal error handler. -/
inductive Outcome where
  | direct (stage : String) (status : Nat) (message : String)
  | handled (handler : String) (st : ReqState)
  | errorShaped (status : Nat) (message : String)
deriving Repr, DecidableEq

/-- The application configuration: the development flag (morgan), the set
of files express.static can serve, and one abstract predicate per mounted
router saying whether some internal route of that router matches the
request (the router files are not among the given sources). -/
structure App where
  devMode : Bool
  staticFiles : List String
  viewHandles : Request → Bool
  tourHandles : Request → Bool
  userHandles : Request → Bool
  reviewHandles : Request → Bool
  bookingHandles : Request → Bool

/-- Boolean string-prefix test on the underlying character lists. -/
def strPre (a b : String) : Bool := a.data.isPrefixOf b.data

/-- Express mount matching for app.use(mount, ...): the path equals the
mount or continues it at a path-segment boundary. -/
def mountMatches (mount p : String) : Bool :=
  p = mount || strPre (mount ++ "/") p

/-- Modelled from the spec: utils/appError.js is not among the given
sources.  An AppError carries a message, an HTTP status code and the
operational flag (true means expected and safe to show verbatim). -/
structure AppError where
  message : String
  statusCode : Nat
  isOperational : Bool
deriving Repr, DecidableEq

/-- Modelled from the spec: controllers/errorController.js is not among
the given sources.  The single terminal error-classification middleware:
an operational fault answers with its own status code and message; a
non-operational fault is hidden behind a generic message and 500 in
production and shown in full in development. -/
def globalErrorHandler (production : Bool) (e : AppError) : Outcome :=
  if e.isOperational then .errorShaped e.statusCode e.message
  else if production then .errorShaped 500 "Something went very wrong!"
  else .errorShaped e.statusCode e.message

/-- The configured rate-limit message of app.js. -/
def limiterMessage : String :=
  "Too many requests from this IP, please try again in an hour!"

/-- The configured rate-limit quota per IP and window (max: 100). -/
def limiterMax : Nat := 100

/-- The body-parser payload cap: the '10kb' limit of express.json and
express.urlencoded, in bytes. -/
def jsonLimitBytes : Nat := 10240

/-- The fault the body parser raises on an oversized payload; it is not
an AppError, so it is not an operational fault. -/
def payloadTooLarge : AppError :=
  { message := "request entity too large", statusCode := 413, isOperational := false }

/-- The message of the catch-all 404 fault of app.js, naming the path. -/
def notFoundMessage (p : String) : String :=
  "Can't find " ++ p ++ " on this server!"

/-- The hpp whitelist configured in app.js: these query parameters may
stay arrays when supplied more than once. -/
def hppWhitelist : List String :=
  ["duration", "ratingsQuantity", "ratingsAverage", "maxGroupSize", "difficulty", "price"]

/-- Split a raw query key at a bracket, accumulating the base key:
price[gte] becomes (price, some gte); a plain key has no subkey. -/
def splitKeyAux (acc : List Char) : List Char → String × Option String
  | [] => (String.mk acc.reverse, none)
  | '[' :: rest => (String.mk acc.reverse, some (String.mk rest.dropLast))
  | c :: rest => splitKeyAux (c :: acc) rest

/-- Split a raw query key at a bracket: price[gte] becomes (price, some
gte); a plain key has no subkey. -/
def splitKey (k : String) : String × Option String :=
  splitKeyAux [] k.data

/-- Insert a plain-key raw pair into a parsed query, merging a repeated
key into an array as qs does. -/
def addPlain : List (String × QueryValue) → String → String → List (String × QueryValue)
  | [], b, v => [(b, .str v)]
  | (k, qv) :: rest, b, v =>
    if k = b then
      match qv with
      | .str s => (k, .arr [s, v]) :: rest
      | .arr l => (k, .arr (l ++ [v])) :: rest
      | .obj o => (k, .obj o) :: rest
    else (k, qv) :: addPlain rest b v

/-- Insert a bracket-key raw pair into a parsed query, merging subkeys of
one base key into an object as qs does. -/
def addSub : List (String × QueryValue) → String → String → String → List (String × QueryValue)
  | [], b, s, v => [(b, .obj [(s, v)])]
  | (k, qv) :: rest, b, s, v =>
    if k = b then
      match qv with
      | .obj o => (k, .obj (o ++ [(s, v)])) :: rest
      | other => (k, other) :: rest
    else (k, qv) :: addSub rest b s v

/-- One raw pair folded into the parsed query, by key shape. -/
def qsStep (q : List (String × QueryValue)) (kv : String × String) :
    List (String × QueryValue) :=
  match splitKey kv.1 with
  | (b, none) => addPlain q b kv.2
  | (b, some s) => addSub q b s kv.2

/-- Parse the raw query pairs in wire order into Express's req.query. -/
def parseQS (pairs : List (String × String)) : List (String × QueryValue) :=
  pairs.foldl qsStep []

/-- The hpp middleware: a parameter that qs turned into an array (it was
supplied more than once) is collapsed to its last value unless the
parameter is whitelisted; everything else is left alone. -/
def hppClean (whitelist : List String) (q : List (String × QueryValue)) :
    List (String × QueryValue) :=
  q.map fun kv =>
    match kv with
    | (k, .arr l) =>
      if whitelist.contains k then (k, .arr l) else (k, .str (l.getLastD ""))
    | other => other

/-- Bump one IP's hit counter in the rate limiter's store. -/
def bump (counts : String → Nat) (ip : String) : String → Nat :=
  fun s => if s = ip then counts s + 1 else counts s

/-- The stages every request traverses before the rate limiter: cors,
express.static, helmet, and morgan in development. -/
def baseTrace (a : App) : List String :=
  ["cors", "static", "helmet"] ++ (if a.devMode then ["morgan"] else [])

/-- The body-parsing and sanitization stages between the webhook route
and the routers, in registration order. -/
def parseStageTrace : List String :=
  ["json", "urlencoded", "cookieParser", "mongoSanitize", "xss", "hpp",
   "compression", "requestTime"]

/-- The request state the raw-body webhook handler sees: express.raw
keeps the raw bytes when the content type matches application/json, and
none of the later transforming middlewares have run. -/
def webhookState (r : Request) : ReqState :=
  { req := r
    body := if r.contentType = "application/json" then .raw r.bodyBytes else .unparsed
    query := parseQS r.rawPairs
    cookiesParsed := false
    mongoSanitized := false
    xssCleaned := false
    hppApplied := false
    requestTime := false }

/-- The request state a router handler sees after the full chain: parsed
body, hpp-cleaned query, both sanitizers and the timestamp applied. -/
def pipelineState (r : Request) : ReqState :=
  { req := r
    body :=
      if r.contentType = "application/json" then .json r.bodyBytes
      else if r.contentType = "application/x-www-form-urlencoded" then .urlenc r.bodyBytes
      else .unparsed
    query := hppClean hppWhitelist (parseQS r.rawPairs)
    cookiesParsed := true
    mongoSanitized := true
    xssCleaned := true
    hppApplied := true
    requestTime := true }

/-- Whether the body parsers reject the request: a body over the 10kb
limit whose content type matches express.json or express.urlencoded. -/
def oversized (r : Request) : Bool :=
  (r.contentType = "application/json"
    || r.contentType = "application/x-www-form-urlencoded")
  && jsonLimitBytes < r.bodyBytes.length

/-- Router dispatch in mount order (viewRouter at /, then the four api
routers), falling through to the catch-all 404 of app.js which forwards
an operational AppError to the terminal error handler. -/
def routeDispatch (a : App) (production : Bool) (st : ReqState) (r : Request) :
    Outcome × List String :=
  if a.viewHandles r then (.handled "view" st, ["viewRouter"])
  else if mountMatches "/api/v1/tours" r.path && a.tourHandles r then
    (.handled "tour" st, ["viewRouter", "tourRouter"])
  else if mountMatches "/api/v1/users" r.path && a.userHandles r then
    (.handled "user" st, ["viewRouter", "tourRouter", "userRouter"])
  else if mountMatches "/api/v1/reviews" r.path && a.reviewHandles r then
    (.handled "review" st, ["viewRouter", "tourRouter", "userRouter", "reviewRouter"])
  else if mountMatches "/api/v1/bookings" r.path && a.bookingHandles r then
    (.handled "booking" st,
     ["viewRouter", "tourRouter", "userRouter", "reviewRouter", "bookingRouter"])
  else
    (globalErrorHandler production
      { message := notFoundMessage r.path, statusCode := 404, isOperational := true },
     ["viewRouter", "tourRouter", "userRouter", "reviewRouter", "bookingRouter", "catchAll"])

/-- The chain after the rate limiter: the raw-body webhook route is
registered before the generic body parsers, then parsing, sanitization
and the routers. -/
def postLimiter (a : App) (production : Bool) (r : Request) : Outcome × List String :=
  if r.method = "POST" && r.path = "/webhook-checkout" then
    (.handled "webhookCheckout" (webhookState r), ["webhookRaw"])
  else if oversized r then
    (globalErrorHandler production payloadTooLarge,
     if r.contentType = "application/json" then ["json"] else ["json", "urlencoded"])
  else
    let ot := routeDispatch a production (pipelineState r) r
    (ot.1, parseStageTrace ++ ot.2)

/-- Whether express.static answers the request itself: a GET or HEAD
for a file present under public/. -/
def staticServes (a : App) (r : Request) : Bool :=
  (r.method = "GET" || r.method = "HEAD") && a.staticFiles.contains r.path

/-- One request through the whole app.js pipeline: outcome, the trace of
executed stages in order, and the rate limiter's updated counters. -/
def dispatch (a : App) (production : Bool) (counts : String → Nat) (r : Request) :
    Outcome × List String × (String → Nat) :=
  if r.method = "OPTIONS" then (.direct "cors" 204 "", ["cors"], counts)
  else if staticServes a r then
    (.direct "static" 200 "", ["cors", "static"], counts)
  else if mountMatches "/api" r.path then
    if limiterMax ≤ counts r.ip then
      (.direct "limiter" 429 limiterMessage, baseTrace a ++ ["limiter"], bump counts r.ip)
    else
      let ot := postLimiter a production r
      (ot.1, baseTrace a ++ ["limiter"] ++ ot.2, bump counts r.ip)
  else
    let ot := postLimiter a production r
    (ot.1, baseTrace a ++ ot.2, counts)

/-- Serve a list of requests in order, threading the limiter's counters. -/
def serveList (a : App) (production : Bool) (counts : String → Nat) :
    List Request → List Outcome × (String → Nat)
  | [] => ([], counts)
  | r :: rs =>
    let o := dispatch a production counts r
    let rest := serveList a production o.2.2 rs
    (o.1 :: rest.1, rest.2)

/-- The limiter counters after the same request has been served n times,
starting from an empty store. -/
def iterServe (a : App) (production : Bool) (r : Request) : Nat → (String → Nat)
  | 0 => fun _ => 0
  | n + 1 => (dispatch a production (iterServe a production r n) r).2.2

/-!  The process supervisor (server bootstrap file): handlers for
uncaughtException, unhandledRejection and SIGTERM, as a state machine. -/

/-- Process-level events the bootstrap file reacts to, plus the server's
close-completed callback firing after in-flight requests drained. -/
inductive ProcEvent where
  | uncaughtException
  | unhandledRejection
  | sigterm
  | serverClosed
deriving Repr, DecidableEq

/-- Supervisor state: running; draining (server.close called, in-flight
requests finishing) with the exit code the close callback will pass, or
none when the callback calls no exit and the process ends with the
implicit success code; or exited with a code. -/
inductive ProcState where
  | running
  | draining (pendingExit : Option Nat)
  | exited (code : Nat)
deriving Repr, DecidableEq

/-- One step of the supervisor, exactly as the bootstrap file wires it:
an uncaught exception exits 1 immediately; an unhandled rejection closes
the server and exits 1 from the close callback; SIGTERM closes the
server and lets the process end on its own; a completed close fires the
pending exit, or the implicit 0. -/
def procStep : ProcState → ProcEvent → ProcState
  | .running, .uncaughtException => .exited 1
  | .running, .unhandledRejection => .draining (some 1)
  | .running, .sigterm => .draining none
  | .draining (some c), .serverClosed => .exited c
  | .draining none, .serverClosed => .exited 0
  | s, _ => s

/-- Run the supervisor over a sequence of events. -/
def procRun (s : ProcState) (es : List ProcEvent) : ProcState :=
  es.foldl procStep s

/-!  Concrete fixtures used by counterexamples and witnesses. -/

/-- A configuration with no static files and routers whose route tables
match nothing. -/
def appDefault : App :=
  { devMode := false, staticFiles := [],
    viewHandles := fun _ => false, tourHandles := fun _ => false,
    userHandles := fun _ => false, reviewHandles := fun _ => false,
    bookingHandles := fun _ => false }

/-- appDefault with a tour route matching every request into the tour
router. -/
def appTours : App :=
  { appDefault with tourHandles := fun _ => true }

/-- The request of the spec's worked example: GET /api/v1/tours with a
range filter on price and a repeated difficulty parameter. -/
def c6Request : Request :=
  { method := "GET", path := "/api/v1/tours", contentType := "",
    bodyBytes := [], ip := "203.0.113.7",
    rawPairs := [("price[gte]", "100"), ("price[lte]", "500"),
                 ("difficulty", "easy"), ("difficulty", "hard")] }

/-- A webhook call: POST /webhook-checkout with a JSON body larger than
the 10kb limit of the generic parsers. -/
def webhookReq : Request :=
  { method := "POST", path := "/webhook-checkout",
    contentType := "application/json",
    bodyBytes := List.replicate 11000 7, rawPairs := [], ip := "198.51.100.9" }

/-!  Shape lemmas about the pipeline's pieces. -/

/-- The terminal error handler always answers with an error-shaped
response. -/
theorem globalErrorHandler_shape (p : Bool) (e : AppError) :
    ∃ st m, globalErrorHandler p e = .errorShaped st m := by
  unfold globalErrorHandler
  split
  · exact ⟨_, _, rfl⟩
  · split
    · exact ⟨_, _, rfl⟩
    · exact ⟨_, _, rfl⟩

/-- Router dispatch ends in a handler or in the error handler. -/
theorem routeDispatch_shape (a : App) (p : Bool) (st : ReqState) (r : Request) :
    (∃ hdl s, (routeDispatch a p st r).1 = .handled hdl s) ∨
    (∃ c m, (routeDispatch a p st r).1 = .errorShaped c m) := by
  unfold routeDispatch
  repeat' split
  · exact .inl ⟨_, _, rfl⟩
  · exact .inl ⟨_, _, rfl⟩
  · exact .inl ⟨_, _, rfl⟩
  · exact .inl ⟨_, _, rfl⟩
  · exact .inl ⟨_, _, rfl⟩
  · obtain ⟨c, m, h⟩ := globalErrorHandler_shape p
      { message := notFoundMessage r.path, statusCode := 404, isOperational := true }
    exact .inr ⟨c, m, h⟩

/-- The chain after the limiter ends in a handler or in the error
handler, never in a direct middleware response. -/
theorem postLimiter_shape (a : App) (p : Bool) (r : Request) :
    (∃ hdl s, (postLimiter a p r).1 = .handled hdl s) ∨
    (∃ c m, (postLimiter a p r).1 = .errorShaped c m) := by
  unfold postLimiter
  split
  · exact .inl ⟨_, _, rfl⟩
  · split
    · obtain ⟨c, m, h⟩ := globalErrorHandler_shape p payloadTooLarge
      exact .inr ⟨c, m, h⟩
    · exact routeDispatch_shape a p (pipelineState r) r

/-- The chain after the limiter never answers directly from a
middleware stage. -/
theorem postLimiter_not_direct (a : App) (p : Bool) (r : Request)
    (s : String) (c : Nat) (m : String) :
    (postLimiter a p r).1 ≠ .direct s c m := by
  rcases postLimiter_shape a p r with ⟨hdl, st, h⟩ | ⟨cd, ms, h⟩ <;>
    simp [h]

/-!  Claim theorems. -/

/-- C2: the supervisor exits with code 1 immediately on an uncaught
synchronous exception; on an unhandled asynchronous rejection it first
closes the server (draining in-flight requests) and the close callback
exits with code 1; on SIGTERM it closes the server and calls no exit, so
after the drain the process ends with the implicit success code 0. -/
theorem processExitCodes :
    procStep .running .uncaughtException = .exited 1 ∧
    procStep .running .unhandledRejection = .draining (some 1) ∧
    procRun .running [.unhandledRejection, .serverClosed] = .exited 1 ∧
    procStep .running .sigterm = .draining none ∧
    procRun .running [.sigterm, .serverClosed] = .exited 0 := by
  decide

/-- The pipeline property claim C1 asserts: any response carrying an
error status (400 or above) is produced by the terminal error handler,
never sent directly by an earlier middleware stage. -/
def uniformErrorShaping : Prop :=
  ∀ (a : App) (production : Bool) (counts : String → Nat) (r : Request)
    (s : String) (st : Nat) (m : String),
    (dispatch a production counts r).1 = .direct s st m → st < 400

/-- C1 counterexample: the claim fails on the code — once an IP's counter
has reached the quota, a GET /api/v1/tours request is answered directly
by the rate limiter with status 429 and its fixed plain message, a
response path that bypasses the terminal error-shaping middleware. -/
theorem uniformErrorShaping_false : ¬ uniformErrorShaping := by
  intro h
  have h429 :=
    h appDefault false (fun _ => limiterMax) c6Request "limiter" 429 limiterMessage
      (by decide)
  omega

/-- C1 amended: every request either reaches a route handler, or is
answered by the terminal error-classification middleware, or is answered
directly by one of exactly three earlier stages — the cors preflight
(204), static-asset serving (200) and the rate limiter (429, the one
direct error response that bypasses the uniform shaping). -/
theorem dispatch_outcome_classification
    (a : App) (production : Bool) (counts : String → Nat) (r : Request) :
    (∃ hdl st, (dispatch a production counts r).1 = .handled hdl st) ∨
    (∃ c m, (dispatch a production counts r).1 = .errorShaped c m) ∨
    ((dispatch a production counts r).1 = .direct "cors" 204 "" ∨
     (dispatch a production counts r).1 = .direct "static" 200 "" ∨
     (dispatch a production counts r).1 = .direct "limiter" 429 limiterMessage) := by
  unfold dispatch
  split
  · exact .inr (.inr (.inl rfl))
  · split
    · exact .inr (.inr (.inr (.inl rfl)))
    · split
      · split
        · exact .inr (.inr (.inr (.inr rfl)))
        · rcases postLimiter_shape a production r with ⟨hdl, st, h⟩ | ⟨c, m, h⟩
          · exact .inl ⟨hdl, st, h⟩
          · exact .inr (.inl ⟨c, m, h⟩)
      · rcases postLimiter_shape a production r with ⟨hdl, st, h⟩ | ⟨c, m, h⟩
        · exact .inl ⟨hdl, st, h⟩
        · exact .inr (.inl ⟨c, m, h⟩)

/-- C3: a POST to /webhook-checkout with a JSON content type is handled
by the webhook controller with the body kept as the exact raw bytes the
client sent — whatever their length — and the generic json/urlencoded
parsing stages never run on it, because the raw-body route is registered
before them. -/
theorem webhookCheckout_raw_body
    (a : App) (production : Bool) (counts : String → Nat) (r : Request)
    (hm : r.method = "POST") (hp : r.path = "/webhook-checkout")
    (hc : r.contentType = "application/json") :
    (dispatch a production counts r).1 = .handled "webhookCheckout" (webhookState r) ∧
    (webhookState r).body = .raw r.bodyBytes ∧
    "json" ∉ (dispatch a production counts r).2.1 ∧
    "urlencoded" ∉ (dispatch a production counts r).2.1 := by
  have hmount : mountMatches "/api" "/webhook-checkout" = false := by decide
  have hstat : staticServes a r = false := by simp [staticServes, hm]
  have hdisp : dispatch a production counts r
      = (.handled "webhookCheckout" (webhookState r),
         baseTrace a ++ ["webhookRaw"], counts) := by
    unfold dispatch postLimiter
    rw [hm, hp, hmount, hstat]
    simp
  refine ⟨by rw [hdisp], by simp [webhookState, hc], ?_, ?_⟩ <;>
    · rw [hdisp]
      cases hd : a.devMode <;> simp [baseTrace, hd]

/-- C3 witness: the concrete webhook call, whose body is 11000 bytes —
above the 10kb limit of the generic parsers — still reaches the handler
raw. -/
theorem webhookCheckout_raw_body_witness :
    (dispatch appDefault true (fun _ => 0) webhookReq).1
        = .handled "webhookCheckout" (webhookState webhookReq) ∧
    (webhookState webhookReq).body = .raw webhookReq.bodyBytes ∧
    "json" ∉ (dispatch appDefault true (fun _ => 0) webhookReq).2.1 ∧
    "urlencoded" ∉ (dispatch appDefault true (fun _ => 0) webhookReq).2.1 :=
  webhookCheckout_raw_body appDefault true (fun _ => 0) webhookReq rfl rfl rfl

/-- A request that reaches the rate limiter (not a preflight, not served
statically, path under the /api mount) bumps its IP's counter by one,
whether it is served or rejected. -/
theorem dispatch_api_counts
    (a : App) (p : Bool) (c : String → Nat) (r : Request)
    (hm : r.method ≠ "OPTIONS") (hs : staticServes a r = false)
    (hapi : mountMatches "/api" r.path = true) :
    (dispatch a p c r).2.2 = bump c r.ip := by
  unfold dispatch
  rw [if_neg hm, hs, hapi]
  simp only [Bool.false_eq_true, if_false, if_true]
  split <;> rfl

/-- After n repetitions of one request that reaches the limiter, the
limiter's store holds n hits for that IP. -/
theorem iterServe_ip (a : App) (p : Bool) (r : Request)
    (hm : r.method ≠ "OPTIONS") (hs : staticServes a r = false)
    (hapi : mountMatches "/api" r.path = true) :
    ∀ n, iterServe a p r n r.ip = n := by
  intro n
  induction n with
  | zero => rfl
  | succ k ih =>
    show (dispatch a p (iterServe a p r k) r).2.2 r.ip = k + 1
    rw [dispatch_api_counts a p _ r hm hs hapi]
    simp [bump, ih]

/-- At or over the quota, the limiter answers directly with 429 and its
configured message. -/
theorem dispatch_limiter_reject
    (a : App) (p : Bool) (c : String → Nat) (r : Request)
    (hm : r.method ≠ "OPTIONS") (hs : staticServes a r = false)
    (hapi : mountMatches "/api" r.path = true) (hq : limiterMax ≤ c r.ip) :
    (dispatch a p c r).1 = .direct "limiter" 429 limiterMessage := by
  unfold dispatch
  rw [if_neg hm, hs, hapi]
  simp [hq]

/-- Under the quota, the limiter passes the request on to the rest of
the chain. -/
theorem dispatch_limiter_pass
    (a : App) (p : Bool) (c : String → Nat) (r : Request)
    (hm : r.method ≠ "OPTIONS") (hs : staticServes a r = false)
    (hapi : mountMatches "/api" r.path = true) (hq : c r.ip < limiterMax) :
    (dispatch a p c r).1 = (postLimiter a p r).1 := by
  unfold dispatch
  rw [if_neg hm, hs, hapi]
  simp [Nat.not_le.mpr hq]

/-- C4: for one client IP repeating a request to an /api path within one
window, each of the first 100 requests is never answered by the rate
limiter, and every request past the quota — the 101st and beyond — is
answered directly by the limiter with status 429 and the fixed message
configured in app.js. -/
theorem rateLimiter_quota
    (a : App) (p : Bool) (r : Request)
    (hm : r.method ≠ "OPTIONS") (hs : staticServes a r = false)
    (hapi : mountMatches "/api" r.path = true) :
    (∀ n, n < limiterMax → ∀ st m,
        (dispatch a p (iterServe a p r n) r).1 ≠ .direct "limiter" st m) ∧
    (∀ n, limiterMax ≤ n →
        (dispatch a p (iterServe a p r n) r).1
          = .direct "limiter" 429 limiterMessage) := by
  constructor
  · intro n hn st m
    rw [dispatch_limiter_pass a p _ r hm hs hapi
      (by rw [iterServe_ip a p r hm hs hapi]; exact hn)]
    exact postLimiter_not_direct a p r _ _ _
  · intro n hn
    exact dispatch_limiter_reject a p _ r hm hs hapi
      (by rw [iterServe_ip a p r hm hs hapi]; exact hn)

/-- A repeated API request used by the rate-limit witness. -/
def apiReq : Request :=
  { method := "GET", path := "/api/v1/users", contentType := "",
    bodyBytes := [], rawPairs := [], ip := "192.0.2.50" }

/-- C4 witness: after 100 GET /api/v1/users requests from one IP, the
101st is answered by the limiter with 429 and the configured message. -/
theorem rateLimiter_quota_witness :
    (dispatch appDefault false (iterServe appDefault false apiReq limiterMax) apiReq).1
      = .direct "limiter" 429 limiterMessage :=
  (rateLimiter_quota appDefault false apiReq (by decide) (by decide) (by decide)).2
    limiterMax (Nat.le_refl limiterMax)

/-- Adding a value under a key that already holds one merges them into a
two-element array, as qs does for a repeated parameter. -/
theorem addPlain_same_str (k s v : String) :
    addPlain [(k, .str s)] k v = [(k, .arr [s, v])] := by
  simp [addPlain]

/-- Adding a value under a key already holding an array appends it. -/
theorem addPlain_same_arr (k v : String) (l : List String) :
    addPlain [(k, .arr l)] k v = [(k, .arr (l ++ [v]))] := by
  simp [addPlain]

/-- A plain (bracketless) raw pair folds by addPlain. -/
theorem qsStep_plain (q : List (String × QueryValue)) (k v : String)
    (hk : splitKey k = (k, none)) :
    qsStep q (k, v) = addPlain q k v := by
  simp [qsStep, hk]

/-- Folding further repetitions of one plain key onto its array appends
them all in order. -/
theorem foldl_qsStep_arr (k : String) (hk : splitKey k = (k, none)) :
    ∀ (vs : List String) (l : List String),
      (vs.map fun x => (k, x)).foldl qsStep [(k, .arr l)] = [(k, .arr (l ++ vs))] := by
  intro vs
  induction vs with
  | nil => intro l; simp
  | cons v rest ih =>
    intro l
    simp only [List.map_cons, List.foldl_cons, qsStep_plain _ _ _ hk,
      addPlain_same_arr]
    rw [ih (l ++ [v])]
    simp

/-- A plain query parameter supplied at least twice parses to the array
of all its values in wire order. -/
theorem parseQS_repeated (k : String) (hk : splitKey k = (k, none))
    (v w : String) (vs : List String) :
    parseQS ((v :: w :: vs).map fun x => (k, x)) = [(k, .arr (v :: w :: vs))] := by
  unfold parseQS
  simp only [List.map_cons, List.foldl_cons, qsStep_plain _ _ _ hk]
  have h1 : addPlain [] k v = [(k, .str v)] := rfl
  rw [h1, addPlain_same_str]
  have h2 := foldl_qsStep_arr k hk vs [v, w]
  simpa using h2

/-- C5: for a query parameter supplied two or more times, the
parameter-pollution guard keeps only the last supplied value when the
parameter is not whitelisted, and keeps all supplied values as an array
when it is one of the six whitelisted fields. -/
theorem hpp_repeated_param (k : String) (hk : splitKey k = (k, none))
    (v w : String) (vs : List String) :
    (hppWhitelist.contains k = false →
      hppClean hppWhitelist (parseQS ((v :: w :: vs).map fun x => (k, x)))
        = [(k, .str ((v :: w :: vs).getLastD ""))]) ∧
    (hppWhitelist.contains k = true →
      hppClean hppWhitelist (parseQS ((v :: w :: vs).map fun x => (k, x)))
        = [(k, .arr (v :: w :: vs))]) := by
  rw [parseQS_repeated k hk v w vs]
  constructor
  · intro hw; simp [hppClean]; simpa using hw
  · intro hw; simp [hppClean]; simpa using hw

/-- C5 witness: sort=asc&sort=desc collapses to desc (sort is not
whitelisted); price=100&price=500 stays the array of both values. -/
theorem hpp_repeated_param_witness :
    hppClean hppWhitelist (parseQS (("asc" :: "desc" :: []).map fun x => ("sort", x)))
      = [("sort", .str (("asc" :: "desc" :: []).getLastD ""))] ∧
    hppClean hppWhitelist (parseQS (("100" :: "500" :: []).map fun x => ("price", x)))
      = [("price", .arr ("100" :: "500" :: []))] :=
  ⟨(hpp_repeated_param "sort" (by decide) "asc" "desc" []).1 (by decide),
   (hpp_repeated_param "price" (by decide) "100" "500" []).2 (by decide)⟩

/-- C6 counterexample: on the spec's own example request, after the
guard runs, difficulty does not collapse to the single value "hard" —
difficulty is one of the six whitelisted parameters, so both supplied
values are kept as an array. -/
theorem c6_difficulty_not_collapsed :
    (pipelineState c6Request).query
      = [("price", .obj [("gte", "100"), ("lte", "500")]),
         ("difficulty", .arr ["easy", "hard"])] ∧
    (pipelineState c6Request).query.lookup "difficulty" ≠ some (.str "hard") := by
  decide

/-- C6 amended: on GET /api/v1/tours with price[gte]=100, price[lte]=500
and difficulty supplied twice, the request reaches the tour router with
price preserved as the gte/lte range structure and difficulty — a
whitelisted parameter — retained as the array of both supplied values
rather than collapsed to "hard". -/
theorem c6_query_after_guard :
    (dispatch appTours false (fun _ => 0) c6Request).1
      = .handled "tour" (pipelineState c6Request) ∧
    (pipelineState c6Request).query
      = [("price", .obj [("gte", "100"), ("lte", "500")]),
         ("difficulty", .arr ["easy", "hard"])] := by
  decide

/-- A request that is neither a preflight nor a static file nor over
quota flows into the post-limiter chain; its trace extends the
pre-routing stages (with the limiter stage exactly when the path is
under /api) by the post-limiter trace. -/
theorem dispatch_reaches_postLimiter
    (a : App) (p : Bool) (c : String → Nat) (r : Request)
    (hm : r.method ≠ "OPTIONS") (hs : staticServes a r = false)
    (hq : mountMatches "/api" r.path = true → c r.ip < limiterMax) :
    (dispatch a p c r).1 = (postLimiter a p r).1 ∧
    ((dispatch a p c r).2.1 = baseTrace a ++ ["limiter"] ++ (postLimiter a p r).2 ∨
     (dispatch a p c r).2.1 = baseTrace a ++ (postLimiter a p r).2) := by
  unfold dispatch
  rw [if_neg hm, hs]
  cases hapi : mountMatches "/api" r.path
  · simp
  · have hlt := hq hapi
    simp [Nat.not_le.mpr hlt]

/-- C7: a request whose JSON body exceeds the 10kb limit — and which is
not short-circuited earlier and is not the raw-body webhook route — is
rejected by the body-parsing stage: the outcome is the error handler's
shaping of the 413 fault, no route handler sees it, and neither the
routers nor the sanitizers appear in its trace. -/
theorem oversized_body_rejected
    (a : App) (p : Bool) (c : String → Nat) (r : Request)
    (hm : r.method ≠ "OPTIONS") (hs : staticServes a r = false)
    (hq : mountMatches "/api" r.path = true → c r.ip < limiterMax)
    (hw : ¬(r.method = "POST" ∧ r.path = "/webhook-checkout"))
    (hct : r.contentType = "application/json")
    (hlen : jsonLimitBytes < r.bodyBytes.length) :
    (dispatch a p c r).1 = globalErrorHandler p payloadTooLarge ∧
    (∀ hdl st, (dispatch a p c r).1 ≠ .handled hdl st) ∧
    "viewRouter" ∉ (dispatch a p c r).2.1 ∧
    "mongoSanitize" ∉ (dispatch a p c r).2.1 := by
  have hpost : postLimiter a p r = (globalErrorHandler p payloadTooLarge, ["json"]) := by
    unfold postLimiter
    rw [if_neg (fun hcond => hw (by simpa using hcond))]
    have hov : oversized r = true := by
      simp [oversized, hct, hlen]
    rw [hov]
    simp [hct]
  obtain ⟨ho, htr⟩ := dispatch_reaches_postLimiter a p c r hm hs hq
  rw [hpost] at ho htr
  refine ⟨ho, ?_, ?_, ?_⟩
  · intro hdl st hcontra
    rw [ho] at hcontra
    obtain ⟨cc, mm, hg⟩ := globalErrorHandler_shape p payloadTooLarge
    rw [hg] at hcontra
    exact Outcome.noConfusion hcontra
  · rcases htr with h | h <;>
      · rw [h]; cases hd : a.devMode <;> simp [baseTrace, hd]
  · rcases htr with h | h <;>
      · rw [h]; cases hd : a.devMode <;> simp [baseTrace, hd]

/-- A POST /api/v1/users whose JSON body is 10241 bytes, one over the
limit. -/
def bigBodyReq : Request :=
  { method := "POST", path := "/api/v1/users",
    contentType := "application/json",
    bodyBytes := List.replicate 10241 0, rawPairs := [], ip := "192.0.2.77" }

/-- C7 witness: the concrete oversized POST is rejected by the parser
stage and never reaches a handler. -/
theorem oversized_body_rejected_witness :
    (dispatch appDefault true (fun _ => 0) bigBodyReq).1
      = globalErrorHandler true payloadTooLarge ∧
    (∀ hdl st, (dispatch appDefault true (fun _ => 0) bigBodyReq).1 ≠ .handled hdl st) ∧
    "viewRouter" ∉ (dispatch appDefault true (fun _ => 0) bigBodyReq).2.1 ∧
    "mongoSanitize" ∉ (dispatch appDefault true (fun _ => 0) bigBodyReq).2.1 :=
  oversized_body_rejected appDefault true (fun _ => 0) bigBodyReq (by decide) (by decide)
    (by decide) (by decide) rfl (by norm_num [bigBodyReq, jsonLimitBytes])

/-- C8: a request matching no registered route — none of the mounted
routers has a matching internal route, it is not the webhook route, and
it is not short-circuited by the preflight, static or limiter stages or
the body-size check — is turned by the catch-all into an operational
404 whose shaped response carries status 404 and a message naming the
requested path. -/
theorem unmatched_path_404
    (a : App) (p : Bool) (c : String → Nat) (r : Request)
    (hm : r.method ≠ "OPTIONS") (hs : staticServes a r = false)
    (hq : mountMatches "/api" r.path = true → c r.ip < limiterMax)
    (hw : ¬(r.method = "POST" ∧ r.path = "/webhook-checkout"))
    (hov : oversized r = false)
    (hv : a.viewHandles r = false) (ht : a.tourHandles r = false)
    (hu : a.userHandles r = false) (hrev : a.reviewHandles r = false)
    (hb : a.bookingHandles r = false) :
    (dispatch a p c r).1 = .errorShaped 404 (notFoundMessage r.path) ∧
    notFoundMessage r.path = "Can't find " ++ r.path ++ " on this server!" := by
  have hroute : (routeDispatch a p (pipelineState r) r).1
      = globalErrorHandler p
          { message := notFoundMessage r.path, statusCode := 404, isOperational := true } := by
    unfold routeDispatch
    rw [hv, ht, hu, hrev, hb]
    simp
  have hpost : (postLimiter a p r).1
      = globalErrorHandler p
          { message := notFoundMessage r.path, statusCode := 404, isOperational := true } := by
    unfold postLimiter
    rw [if_neg (fun hcond => hw (by simpa using hcond)), hov]
    simpa using hroute
  have hge : globalErrorHandler p
      { message := notFoundMessage r.path, statusCode := 404, isOperational := true }
      = .errorShaped 404 (notFoundMessage r.path) := by
    simp [globalErrorHandler]
  exact ⟨by rw [(dispatch_reaches_postLimiter a p c r hm hs hq).1, hpost, hge], rfl⟩

/-- A GET for a path no router defines. -/
def missReq : Request :=
  { method := "GET", path := "/nonexistent", contentType := "",
    bodyBytes := [], rawPairs := [], ip := "192.0.2.9" }

/-- C8 witness: GET /nonexistent is answered 404 with a message naming
the path. -/
theorem unmatched_path_404_witness :
    (dispatch appDefault false (fun _ => 0) missReq).1
      = .errorShaped 404 (notFoundMessage missReq.path) ∧
    notFoundMessage missReq.path = "Can't find " ++ missReq.path ++ " on this server!" :=
  unmatched_path_404 appDefault false (fun _ => 0) missReq (by decide) (by decide)
    (by decide) (by decide) (by decide) rfl rfl rfl rfl rfl

/-- A path that does not begin with /api never matches the limiter's
/api mount. -/
theorem mountMatches_api_false (q : String) (h : strPre "/api" q = false) :
    mountMatches "/api" q = false := by
  cases hm : mountMatches "/api" q
  · rfl
  · exfalso
    unfold mountMatches at hm
    simp only [Bool.or_eq_true, decide_eq_true_eq] at hm
    rcases hm with rfl | hpre
    · exact absurd h (by decide)
    · have h1 : "/api".data <+: ("/api" ++ "/").data :=
        List.isPrefixOf_iff_prefix.mp (by decide)
    
      have h2 : ("/api" ++ "/").data <+: q.data := by
        unfold strPre at hpre
        exact List.isPrefixOf_iff_prefix.mp hpre
      have h3 : "/api".data.isPrefixOf q.data = true :=
        List.isPrefixOf_iff_prefix.mpr (h1.trans h2)
      unfold strPre at h
      rw [h3] at h
      cases h

/-- One request whose path does not begin with /api leaves the limiter's
counters untouched and is never answered by the limiter or with a 429. -/
theorem dispatch_nonapi (a : App) (p : Bool) (c : String → Nat) (r : Request)
    (h : strPre "/api" r.path = false) :
    (dispatch a p c r).2.2 = c ∧
    (∀ st m, (dispatch a p c r).1 ≠ .direct "limiter" st m) ∧
    (∀ s m, (dispatch a p c r).1 ≠ .direct s 429 m) := by
  have hmount := mountMatches_api_false r.path h
  unfold dispatch
  rw [hmount]
  split
  · exact ⟨rfl, by simp, by simp⟩
  · split
    · exact ⟨rfl, by simp, by simp⟩
    · simp only [Bool.false_eq_true, if_false]
      exact ⟨trivial, fun st m => postLimiter_not_direct a p r _ st m,
             fun s m => postLimiter_not_direct a p r s 429 m⟩

/-- C9: over any sequence of requests whose paths do not begin with /api
— POST /webhook-checkout and the server-rendered pages under / among
them — the rate limiter's counters never change (no quota is consumed)
and no response is the limiter's, nor any direct 429, however many
requests one IP sends. -/
theorem limiter_not_on_nonapi
    (a : App) (p : Bool) (c : String → Nat) (rs : List Request)
    (h : ∀ r ∈ rs, strPre "/api" r.path = false) :
    (serveList a p c rs).2 = c ∧
    ∀ o ∈ (serveList a p c rs).1,
      (∀ st m, o ≠ .direct "limiter" st m) ∧ (∀ s m, o ≠ .direct s 429 m) := by
  induction rs generalizing c with
  | nil => exact ⟨rfl, by simp [serveList]⟩
  | cons r rest ih =>
    obtain ⟨hc1, hn1, hn2⟩ := dispatch_nonapi a p c r (h r (by simp))
    have hrest : ∀ x ∈ rest, strPre "/api" x.path = false :=
      fun x hx => h x (by simp [hx])
    obtain ⟨ih1, ih2⟩ := ih (dispatch a p c r).2.2 hrest
    constructor
    · show (serveList a p (dispatch a p c r).2.2 rest).2 = c
      rw [ih1, hc1]
    · intro o ho
      rcases List.mem_cons.mp ho with rfl | htail
      · exact ⟨hn1, hn2⟩
      · exact ih2 o htail

/-- A browser request for a server-rendered tour page. -/
def viewReq : Request :=
  { method := "GET", path := "/tour/the-forest-hiker", contentType := "",
    bodyBytes := [], rawPairs := [], ip := "192.0.2.9" }

/-- C9 witness: a webhook POST and a view-page GET, served with every
counter already at 7, leave all counters at 7 and draw no limiter or
429 response. -/
theorem limiter_not_on_nonapi_witness :
    (serveList appDefault false (fun _ => 7) [webhookReq, viewReq]).2 = (fun _ => 7) ∧
    ∀ o ∈ (serveList appDefault false (fun _ => 7) [webhookReq, viewReq]).1,
      (∀ st m, o ≠ .direct "limiter" st m) ∧ (∀ s m, o ≠ .direct s 429 m) :=
  limiter_not_on_nonapi appDefault false (fun _ => 7) [webhookReq, viewReq] (by decide)

/-- A handler reached through the routers sees exactly the request state
the chain built. -/
theorem routeDispatch_handled_state
    (a : App) (p : Bool) (st : ReqState) (r : Request) (hdl : String) (s : ReqState)
    (hh : (routeDispatch a p st r).1 = .handled hdl s) :
    s = st := by
  unfold routeDispatch at hh
  repeat' split at hh
  all_goals
    first
    | · injection hh with h1 h2
        exact h2.symm
    | · obtain ⟨cc, mm, hg⟩ := globalErrorHandler_shape p
          { message := notFoundMessage r.path, statusCode := 404, isOperational := true }
        rw [hg] at hh
        exact Outcome.noConfusion hh

/-- Any handler other than the webhook controller reached through the
post-limiter chain sees the fully sanitized pipeline state, and both
sanitization stages are in the trace. -/
theorem postLimiter_handled_sanitized
    (a : App) (p : Bool) (r : Request) (hdl : String) (st : ReqState)
    (hh : (postLimiter a p r).1 = .handled hdl st)
    (hne : hdl ≠ "webhookCheckout") :
    st = pipelineState r ∧
    "mongoSanitize" ∈ (postLimiter a p r).2 ∧ "xss" ∈ (postLimiter a p r).2 := by
  by_cases hwb : (r.method = "POST" && r.path = "/webhook-checkout") = true
  · have hpl : postLimiter a p r
        = (.handled "webhookCheckout" (webhookState r), ["webhookRaw"]) := by
      unfold postLimiter
      rw [if_pos hwb]
    rw [hpl] at hh
    injection hh with h1 h2
    exact absurd h1.symm hne
  · by_cases hov : oversized r = true
    · have hpl : (postLimiter a p r).1 = globalErrorHandler p payloadTooLarge := by
        unfold postLimiter
        rw [if_neg hwb, if_pos hov]
      obtain ⟨cc, mm, hg⟩ := globalErrorHandler_shape p payloadTooLarge
      rw [hpl, hg] at hh
      exact Outcome.noConfusion hh
    · have hpl : postLimiter a p r
          = ((routeDispatch a p (pipelineState r) r).1,
             parseStageTrace ++ (routeDispatch a p (pipelineState r) r).2) := by
        unfold postLimiter
        rw [if_neg hwb, if_neg hov]
      rw [hpl] at hh ⊢
      refine ⟨routeDispatch_handled_state a p (pipelineState r) r hdl st hh, ?_, ?_⟩ <;>
        · apply List.mem_append_left
          simp [parseStageTrace]

/-- C10: a POST to /webhook-checkout never passes the NoSQL-injection or
cross-site-scripting sanitization stages (its terminal handler is
registered before both); every request that reaches one of the four api
resource handlers has passed both sanitizers first — the state the
handler sees is sanitized and both stages are in the trace. -/
theorem sanitizers_and_webhook
    (a : App) (p : Bool) (c : String → Nat) (r : Request) :
    (r.method = "POST" → r.path = "/webhook-checkout" →
      "mongoSanitize" ∉ (dispatch a p c r).2.1 ∧ "xss" ∉ (dispatch a p c r).2.1) ∧
    (∀ hdl st, (dispatch a p c r).1 = .handled hdl st →
      (hdl = "tour" ∨ hdl = "user" ∨ hdl = "review" ∨ hdl = "booking") →
      st.mongoSanitized = true ∧ st.xssCleaned = true ∧
      "mongoSanitize" ∈ (dispatch a p c r).2.1 ∧ "xss" ∈ (dispatch a p c r).2.1) := by
  constructor
  · intro hm hp
    have hmount : mountMatches "/api" "/webhook-checkout" = false := by decide
    have hstat : staticServes a r = false := by simp [staticServes, hm]
    have hdisp : dispatch a p c r
        = (.handled "webhookCheckout" (webhookState r),
           baseTrace a ++ ["webhookRaw"], c) := by
      unfold dispatch postLimiter
      rw [hm, hp, hmount, hstat]
      simp
    rw [hdisp]
    cases hd : a.devMode <;> simp [baseTrace, hd]
  · intro hdl st hh hmem
    have hne : hdl ≠ "webhookCheckout" := by
      rcases hmem with rfl | rfl | rfl | rfl <;> decide
    by_cases hm : r.method = "OPTIONS"
    · unfold dispatch at hh
      rw [if_pos hm] at hh
      exact absurd hh (by simp)
    · by_cases hstat : staticServes a r = true
      · unfold dispatch at hh
        rw [if_neg hm, if_pos hstat] at hh
        exact absurd hh (by simp)
      · rw [Bool.not_eq_true] at hstat
        by_cases hapi : mountMatches "/api" r.path = true
        · by_cases hq : limiterMax ≤ c r.ip
          · unfold dispatch at hh
            rw [if_neg hm, hstat, if_pos hapi, if_pos hq] at hh
            exact absurd hh (by simp)
          · have hdisp : dispatch a p c r
                = ((postLimiter a p r).1,
                   baseTrace a ++ ["limiter"] ++ (postLimiter a p r).2, bump c r.ip) := by
              unfold dispatch
              rw [if_neg hm, hstat, if_pos hapi, if_neg hq]
              simp
            rw [hdisp] at hh ⊢
            obtain ⟨hst, hms, hxs⟩ := postLimiter_handled_sanitized a p r hdl st hh hne
            subst hst
            refine ⟨by simp [pipelineState], by simp [pipelineState], ?_, ?_⟩ <;>
              · apply List.mem_append_right
                assumption
        · rw [Bool.not_eq_true] at hapi
          have hdisp : dispatch a p c r
              = ((postLimiter a p r).1,
                 baseTrace a ++ (postLimiter a p r).2, c) := by
            unfold dispatch
            rw [if_neg hm, hstat, hapi]
            simp
          rw [hdisp] at hh ⊢
          obtain ⟨hst, hms, hxs⟩ := postLimiter_handled_sanitized a p r hdl st hh hne
          subst hst
          refine ⟨by simp [pipelineState], by simp [pipelineState], ?_, ?_⟩ <;>
            · apply List.mem_append_right
              assumption

/-- C10 witness: the webhook POST draws no sanitization stage, while
the example tours request reaches the tour handler sanitized, with both
stages in its trace. -/
theorem sanitizers_and_webhook_witness :
    ("mongoSanitize" ∉ (dispatch appDefault false (fun _ => 0) webhookReq).2.1 ∧
     "xss" ∉ (dispatch appDefault false (fun _ => 0) webhookReq).2.1) ∧
    ((pipelineState c6Request).mongoSanitized = true ∧
     (pipelineState c6Request).xssCleaned = true ∧
     "mongoSanitize" ∈ (dispatch appTours false (fun _ => 0) c6Request).2.1 ∧
     "xss" ∈ (dispatch appTours false (fun _ => 0) c6Request).2.1) :=
  ⟨(sanitizers_and_webhook appDefault false (fun _ => 0) webhookReq).1 rfl rfl,
   (sanitizers_and_webhook appTours false (fun _ => 0) c6Request).2 "tour"
     (pipelineState c6Request) (by decide) (Or.inl rfl)⟩
